import Mathlib

/-!
# go-mysqldump: a shallow embedding of `dump.go`

The Go package `mysqldump` reads the schema and the rows of a MySQL database
through `database/sql` and renders them with a `text/template` template.

* Go strings are Lean `String`s, Go slices are `List`s.
* A Go `error` is identified with its message; a result pair `(v, err)` is the
  pair `(v, err?)` with `err? = none` for `err == nil`.
* The database handle is the external executor.  It is modelled by what it
  answers to each query text (`DB`), so the functions below are pure functions
  of the handle.  Every query text that `Dump` issues is distinct as long as
  `SHOW TABLES` lists no table twice.
* `time.Now().String()` is the parameter `now` of `Dump`.
-/

namespace mysqldump

/-! ## The standard library calls the source makes -/

/-- A Go `error`, identified with its message. -/
abbrev Error := String

deriving instance DecidableEq for Except

/-- Go `strings.Join(elems, sep)`. -/
def strings.Join : List String → String → String
  | [], _ => ""
  | [a], _ => a
  | a :: b :: rest, sep => a ++ sep ++ strings.Join (b :: rest) sep

/-- Go `sql.NullString`. -/
structure NullString where
  String : String
  Valid : Bool
  deriving DecidableEq, Repr

/-- What the driver delivers for the columns of one row: SQL NULL (`none`) or
the text of the value; or the error with which reading that row fails. -/
abbrev RowSrc := Except Error (List (Option String))

/-- Go `*sql.Rows`, the result of `db.Query`: the outcome of `rows.Columns()`,
the rows for which `rows.Next()` is true, and `rows.Err()` after the last. -/
structure Rows where
  Columns : Except Error (List String)
  Data : List RowSrc
  Err : Option Error
  deriving DecidableEq

/-- Go `*sql.DB` as seen by this package: the answer to each query text.
`QueryRow q` is the row that `db.QueryRow(q).Scan` reads (or the error it
reports, `sql.ErrNoRows` included), `Query q` the result of `db.Query(q)`. -/
structure DB where
  QueryRow : String → RowSrc
  Query : String → Except Error Rows

/-- The error of `Scan` when the row has `cols` columns and `dest` destinations
are passed. -/
def scanArityError (cols dest : Nat) : Error :=
  "sql: expected " ++ toString cols ++ " destination arguments in Scan, not " ++ toString dest

/-- `Scan` into a destination of type `*sql.NullString`: NULL leaves the zero
string and `Valid = false`, a value sets its text and `Valid = true`. -/
def scanNullString : Option String → NullString
  | none => { String := "", Valid := false }
  | some v => { String := v, Valid := true }

/-- `Scan` into a destination of type `**sql.NullString` (the address of a
slot of a `[]*sql.NullString`): NULL stores the nil pointer, a value stores a
pointer to a fresh `NullString` that scanned it. -/
def scanNullStringPtr : Option String → Option NullString
  | none => none
  | some v => some (scanNullString (some v))

/-- `Scan(&a)` with one `sql.NullString` destination. -/
def Scan1 : RowSrc → Except Error NullString
  | .error err => .error err
  | .ok [a] => .ok (scanNullString a)
  | .ok vals => .error (scanArityError vals.length 1)

/-- `Scan(&a, &b)` with two `sql.NullString` destinations. -/
def Scan2 : RowSrc → Except Error (NullString × NullString)
  | .error err => .error err
  | .ok [a, b] => .ok (scanNullString a, scanNullString b)
  | .ok vals => .error (scanArityError vals.length 2)

/-- `Scan(ptrs...)` where `ptrs[i] = &data[i]` for a `data` of type
`[]*sql.NullString` with `n` slots: the value of `data` afterwards. -/
def ScanPtrs (src : RowSrc) (n : Nat) : Except Error (List (Option NullString)) :=
  match src with
  | .error err => .error err
  | .ok vals =>
    if vals.length = n then .ok (vals.map scanNullStringPtr)
    else .error (scanArityError vals.length n)

/-! ## The data model of `dump.go` -/

/-- Go `type table struct`. -/
structure table where
  Name : String
  SQL : String
  Values : List String
  deriving DecidableEq, Repr

/-- Go `type dump struct`. -/
structure dump where
  DumpVersion : String
  ServerVersion : String
  DBName : String
  DBSQL : String
  Tables : List table
  CompleteTime : String
  deriving DecidableEq, Repr

/-- Go `const version`. -/
def version : String := "0.2.2"

/-! ## The metadata queries -/

/-- Go `getServerVersion`. -/
def getServerVersion (db : DB) : String × Option Error :=
  match Scan1 (db.QueryRow "SELECT version()") with
  | .error err => ("", some err)
  | .ok server_version => (server_version.String, none)

/-- Go `createDatabaseSQL`. -/
def createDatabaseSQL (db : DB) (name : String) : String × Option Error :=
  match Scan2 (db.QueryRow ("SHOW CREATE DATABASE `" ++ name ++ "`")) with
  | .error err => ("", some err)
  | .ok (database_return, database_sql) =>
    if database_return.String ≠ name then
      ("", some "Returned database is not the same as requested table")
    else (database_sql.String, none)

/-- Go `createTableSQL`. -/
def createTableSQL (db : DB) (name : String) : String × Option Error :=
  match Scan2 (db.QueryRow ("SHOW CREATE TABLE `" ++ name ++ "`")) with
  | .error err => ("", some err)
  | .ok (table_return, table_sql) =>
    if table_return.String ≠ name then
      ("", some "Returned table is not the same as requested table")
    else (table_sql.String, none)

/-- The `for rows.Next()` loop of `getTables`: `rest` are the rows still to
come, `tables` the names appended so far. -/
def getTables.read (rows : Rows) : List RowSrc → List String → List String × Option Error
  | [], tables => (tables, rows.Err)
  | r :: rest, tables =>
    match Scan1 r with
    | .error err => (tables, some err)
    | .ok table => getTables.read rows rest (tables ++ [table.String])

/-- Go `getTables`. -/
def getTables (db : DB) : List String × Option Error :=
  let tables : List String := []
  match db.Query "SHOW TABLES" with
  | .error err => (tables, some err)
  | .ok rows => getTables.read rows rows.Data tables

/-! ## The row extractor -/

/-- The body of the loop `for key, value := range data` of `createTableValues`:
the text stored in `dataStrings[key]`. -/
def dataString (value : Option NullString) : String :=
  match value with
  | some v => if v.Valid then "'" ++ v.String ++ "'" else "null"
  | none => "null"

/-- The `for rows.Next()` loop of `createTableValues` for a result with `ncols`
columns: `rest` are the rows still to come, `data_text` the tuples appended so
far.  A failing `Scan` ends the function with that error. -/
def createTableValues.read (ncols : Nat) : List RowSrc → List String → Except Error (List String)
  | [], data_text => .ok data_text
  | r :: rest, data_text =>
    match ScanPtrs r ncols with
    | .error err => .error err
    | .ok data =>
      let dataStrings := data.map dataString
      createTableValues.read ncols rest
        (data_text ++ ["(" ++ strings.Join dataStrings "," ++ ")"])

/-- The loop `for batchSize < len(data_text)` of `createTableValues` with
`batchSize = 1000`, and the `append` after it. -/
def createTableValues.batch (data_text batches : List String) : List String :=
  if 1000 < data_text.length then
    createTableValues.batch (data_text.drop 1000)
      (batches ++ [strings.Join (data_text.take 1000) ","])
  else
    batches ++ [strings.Join data_text ","]
termination_by data_text.length
decreasing_by simp only [List.length_drop]; omega

/-- Go `createTableValues`. -/
def createTableValues (db : DB) (name : String) : List String × Option Error :=
  match db.Query ("SELECT * FROM `" ++ name ++ "`") with
  | .error err => ([], some err)
  | .ok rows =>
    match rows.Columns with
    | .error err => ([], some err)
    | .ok columns =>
      if columns.length = 0 then
        ([], some ("No columns in table " ++ name ++ "."))
      else
        match createTableValues.read columns.length rows.Data [] with
        | .error err => ([], some err)
        | .ok data_text => (createTableValues.batch data_text [], rows.Err)

/-- Go `createTable`.  It returns `(t, nil)` with `t` not nil, or `(nil, err)`:
the two cases of `Except`. -/
def createTable (db : DB) (name : String) : Except Error table :=
  match createTableSQL db name with
  | (_, some err) => .error err
  | (sql, none) =>
    match createTableValues db name with
    | (_, some err) => .error err
    | (values, none) => .ok { Name := name, SQL := sql, Values := values }

/-! ## The template

`text/template` is modelled for the constructs that the template of
`getTemplate` uses: text, `{{ .Field }}`, `{{ . }}`, `{{ $v }}`,
`{{$v := .Field}}`, `{{range .Field}}`, `{{ if . }}` and `{{ end }}`, with no
trim markers, comments or pipelines.  Anything else is a parse error. -/

/-- The scan of Go `strings.Replace(s, old, new, -1)` over the characters of
`s`; `skip` counts the characters of a replaced occurrence still to pass. -/
def strings.replaceChars (old new : List Char) : List Char → Nat → List Char
  | [], _ => []
  | _ :: cs, skip + 1 => strings.replaceChars old new cs skip
  | c :: cs, 0 =>
    if old.isPrefixOf (c :: cs) then new ++ strings.replaceChars old new cs (old.length - 1)
    else c :: strings.replaceChars old new cs 0

/-- Go `strings.Replace(s, old, new, -1)` for a non-empty `old`: every
non-overlapping occurrence of `old`, from the left, becomes `new`. -/
def strings.Replace (s old new : String) : String :=
  String.mk (strings.replaceChars old.data new.data s.data 0)

/-- The raw string literal `rawtemplate` of `getTemplate`. -/
def rawtemplate : String :=
  "-- Go SQL Dump \x7b\x7b .DumpVersion \x7d\x7d\n" ++
  "--\n" ++
  "-- ------------------------------------------------------\n" ++
  "-- Server version\t\x7b\x7b .ServerVersion \x7d\x7d\n" ++
  "\n" ++
  "/*!40101 SET @OLD_CHARACTER_SET_CLIENT=@@CHARACTER_SET_CLIENT */;\n" ++
  "/*!40101 SET @OLD_CHARACTER_SET_RESULTS=@@CHARACTER_SET_RESULTS */;\n" ++
  "/*!40101 SET @OLD_COLLATION_CONNECTION=@@COLLATION_CONNECTION */;\n" ++
  "/*!40101 SET NAMES utf8 */;\n" ++
  "/*!40103 SET @OLD_TIME_ZONE=@@TIME_ZONE */;\n" ++
  "/*!40103 SET TIME_ZONE='+00:00' */;\n" ++
  "/*!40014 SET @OLD_UNIQUE_CHECKS=@@UNIQUE_CHECKS, UNIQUE_CHECKS=0 */;\n" ++
  "/*!40014 SET @OLD_FOREIGN_KEY_CHECKS=@@FOREIGN_KEY_CHECKS, FOREIGN_KEY_CHECKS=0 */;\n" ++
  "/*!40101 SET @OLD_SQL_MODE=@@SQL_MODE, SQL_MODE='NO_AUTO_VALUE_ON_ZERO' */;\n" ++
  "/*!40111 SET @OLD_SQL_NOTES=@@SQL_NOTES, SQL_NOTES=0 */;\n" ++
  "\n" ++
  "\n" ++
  "DROP DATABASE IF EXISTS \x7b\x7b .DBName \x7d\x7d;\n" ++
  "\n" ++
  "\x7b\x7b .DBSQL \x7d\x7d;\n" ++
  "\n" ++
  "USE \x7b\x7b .DBName \x7d\x7d;\n" ++
  "\n" ++
  "\x7b\x7brange .Tables\x7d\x7d\n" ++
  "--\n" ++
  "-- Table structure for table \x7b\x7b .Name \x7d\x7d\n" ++
  "--\n" ++
  "\n" ++
  "DROP TABLE IF EXISTS \x7b\x7b .Name \x7d\x7d;\n" ++
  "/*!40101 SET @saved_cs_client     = @@character_set_client */;\n" ++
  "/*!40101 SET character_set_client = utf8 */;\n" ++
  "\x7b\x7b .SQL \x7d\x7d;\n" ++
  "/*!40101 SET character_set_client = @saved_cs_client */;\n" ++
  "--\n" ++
  "-- Dumping data for table \x7b\x7b .Name \x7d\x7d\n" ++
  "--\n" ++
  "\n" ++
  "LOCK TABLES \x7b\x7b .Name \x7d\x7d WRITE;\n" ++
  "/*!40000 ALTER TABLE \x7b\x7b .Name \x7d\x7d DISABLE KEYS */;\n" ++
  "\x7b\x7b$name := .Name\x7d\x7d\n" ++
  "\x7b\x7brange .Values\x7d\x7d\x7b\x7b if . \x7d\x7dINSERT INTO \x7b\x7b $name \x7d\x7d VALUES \x7b\x7b . \x7d\x7d;\n" ++
  "\x7b\x7b end \x7d\x7d\x7b\x7b end \x7d\x7d\n" ++
  "\n" ++
  "/*!40000 ALTER TABLE \x7b\x7b .Name \x7d\x7d ENABLE KEYS */;\n" ++
  "UNLOCK TABLES;\n" ++
  "\x7b\x7b end \x7d\x7d\n" ++
  "-- Dump completed on \x7b\x7b .CompleteTime \x7d\x7d"

/-- Go `getTemplate`. -/
def getTemplate : String :=
  let rawtemplate := strings.Replace rawtemplate "\x7b\x7b .DBName \x7d\x7d" "`\x7b\x7b .DBName \x7d\x7d`"
  let rawtemplate := strings.Replace rawtemplate "\x7b\x7b $name \x7d\x7d" "`\x7b\x7b $name \x7d\x7d`"
  strings.Replace rawtemplate "\x7b\x7b .Name \x7d\x7d" "`\x7b\x7b .Name \x7d\x7d`"

namespace template

/-- The items of a template: text, and one item for each action. -/
inductive Token where
  | text : String → Token
  | field : String → Token
  | dot : Token
  | variable : String → Token
  | declare : String → String → Token
  | range : String → Token
  | ifDot : Token
  | endAction : Token
  | unsupported : String → Token
  deriving DecidableEq, Repr

/-- The words of an action, separated by spaces; `acc` is the current word,
reversed. -/
def words : List Char → List Char → List String
  | [], acc => if acc.isEmpty then [] else [String.mk acc.reverse]
  | c :: cs, acc =>
    if c = ' ' then
      if acc.isEmpty then words cs [] else String.mk acc.reverse :: words cs []
    else words cs (c :: acc)

/-- The name `X` of a field word `.X`. -/
def fieldName (w : String) : Option String :=
  match w.data with
  | '.' :: f => if !f.isEmpty && f.all Char.isAlphanum then some (String.mk f) else none
  | _ => none

/-- The name `v` of a variable word `$v`. -/
def variableName (w : String) : Option String :=
  match w.data with
  | '$' :: v => if !v.isEmpty && v.all Char.isAlphanum then some (String.mk v) else none
  | _ => none

/-- The action between `{{` and `}}`. -/
def action (body : List Char) : Token :=
  match words body [] with
  | ["end"] => .endAction
  | ["if", "."] => .ifDot
  | ["."] => .dot
  | ["range", w] =>
    match fieldName w with
    | some f => .range f
    | none => .unsupported (String.mk body)
  | [w] =>
    match fieldName w, variableName w with
    | some f, _ => .field f
    | none, some v => .variable v
    | none, none => .unsupported (String.mk body)
  | [v, ":=", w] =>
    match variableName v, fieldName w with
    | some v, some f => .declare v f
    | _, _ => .unsupported (String.mk body)
  | _ => .unsupported (String.mk body)

/-- A text item for the characters `acc` (reversed), none when there are none. -/
def textItem (acc : List Char) : List Token :=
  if acc.isEmpty then [] else [Token.text (String.mk acc.reverse)]

/-- The lexer: text up to `{{`, then the action up to `}}`, and so on.
`inAction` tells on which side of a `{{` the scan is, `acc` holds the
characters of the current item, reversed. -/
def lexChars : List Char → Bool → List Char → Except Error (List Token)
  | [], false, acc => .ok (textItem acc)
  | [], true, _ => .error "template: unclosed action"
  | c :: cs, false, acc =>
    match acc with
    | '\x7b' :: acc1 =>
      if c = '\x7b' then
        match lexChars cs true [] with
        | .ok items => .ok (textItem acc1 ++ items)
        | .error err => .error err
      else lexChars cs false (c :: acc)
    | _ => lexChars cs false (c :: acc)
  | c :: cs, true, acc =>
    match acc with
    | '\x7d' :: acc1 =>
      if c = '\x7d' then
        match lexChars cs false [] with
        | .ok items => .ok (action acc1.reverse :: items)
        | .error err => .error err
      else lexChars cs true (c :: acc)
    | _ => lexChars cs true (c :: acc)

/-- The items of a template text. -/
def lex (s : String) : Except Error (List Token) :=
  lexChars s.data false []

/-- The parse tree of a template. -/
inductive Node where
  | text : String → Node
  | field : String → Node
  | dot : Node
  | variable : String → Node
  | declare : String → String → Node
  | range : String → List Node → Node
  | ifDot : List Node → Node

/-- An open `range` or `if`, waiting for its `end`. -/
inductive Frame where
  | range : String → Frame
  | ifDot : Frame

/-- The node that an `end` closes. -/
def Frame.close : Frame → List Node → Node
  | .range f, body => .range f body
  | .ifDot, body => .ifDot body

/-- The tree builder: `cur` is the node list being read (reversed), `stack` the
open constructs with the node lists they interrupted. -/
def build : List Token → List Node → List (Frame × List Node) → Except Error (List Node)
  | [], cur, [] => .ok cur.reverse
  | [], _, _ :: _ => .error "template: unexpected EOF"
  | .text s :: ts, cur, stack => build ts (.text s :: cur) stack
  | .field f :: ts, cur, stack => build ts (.field f :: cur) stack
  | .dot :: ts, cur, stack => build ts (.dot :: cur) stack
  | .variable v :: ts, cur, stack => build ts (.variable v :: cur) stack
  | .declare v f :: ts, cur, stack => build ts (.declare v f :: cur) stack
  | .range f :: ts, cur, stack => build ts [] ((.range f, cur) :: stack)
  | .ifDot :: ts, cur, stack => build ts [] ((.ifDot, cur) :: stack)
  | .endAction :: _, _, [] => .error "template: unexpected end"
  | .endAction :: ts, cur, (frame, outer) :: stack =>
    build ts (frame.close cur.reverse :: outer) stack
  | .unsupported s :: _, _, _ => .error ("template: unsupported action " ++ s)

/-- Go `template.New(...).Parse(text)`. -/
def Parse (text : String) : Except Error (List Node) :=
  match lex text with
  | .error err => .error err
  | .ok items => build items [] []

/-- The values that the template of this package evaluates: a `dump`, its
fields, a `*table` and its fields. -/
inductive Value where
  | string : String → Value
  | strings : List String → Value
  | table : table → Value
  | tables : List table → Value
  | dump : dump → Value

/-- Field access `.X` on the current value. -/
def Value.field : Value → String → Except Error Value
  | .dump d, "DumpVersion" => .ok (.string d.DumpVersion)
  | .dump d, "ServerVersion" => .ok (.string d.ServerVersion)
  | .dump d, "DBName" => .ok (.string d.DBName)
  | .dump d, "DBSQL" => .ok (.string d.DBSQL)
  | .dump d, "Tables" => .ok (.tables d.Tables)
  | .dump d, "CompleteTime" => .ok (.string d.CompleteTime)
  | .table t, "Name" => .ok (.string t.Name)
  | .table t, "SQL" => .ok (.string t.SQL)
  | .table t, "Values" => .ok (.strings t.Values)
  | _, f => .error ("template: can't evaluate field " ++ f)

/-- The text that an action prints for a value; only strings are printed. -/
def Value.print : Value → Except Error String
  | .string s => .ok s
  | _ => .error "template: value is not a string"

/-- The elements that `range` iterates over. -/
def Value.elements : Value → Except Error (List Value)
  | .strings l => .ok (l.map Value.string)
  | .tables l => .ok (l.map Value.table)
  | _ => .error "template: range can't iterate over value"

/-- The truth of a value in `if`: a string or a slice is true when it is not
empty, a struct is true. -/
def Value.truth : Value → Bool
  | .string s => s ≠ ""
  | .strings l => !l.isEmpty
  | .tables l => !l.isEmpty
  | .table _ => true
  | .dump _ => true

/-- The variables in scope, the latest first. -/
abbrev Env := List (String × Value)

/-- The value of the variable `v`. -/
def lookup (v : String) : Env → Except Error Value
  | [] => .error ("template: undefined variable $" ++ v)
  | (w, x) :: env => if w = v then .ok x else lookup v env

/-- The concatenation of texts, in order. -/
def concat : List String → String
  | [] => ""
  | s :: rest => s ++ concat rest

/-- The outputs of the iterations of a `range`, up to the first error. -/
def collect : List (Except Error String) → Except Error String
  | [] => .ok ""
  | .error err :: _ => .error err
  | .ok s :: rest =>
    match collect rest with
    | .error err => .error err
    | .ok out => .ok (s ++ out)

mutual
/-- The output of one node, and the variables in scope after it. -/
def execNode : Node → Value → Env → Except Error (String × Env)
  | .text s, _, env => .ok (s, env)
  | .field f, dot, env =>
    match dot.field f with
    | .error err => .error err
    | .ok x =>
      match x.print with
      | .error err => .error err
      | .ok s => .ok (s, env)
  | .dot, dot, env =>
    match dot.print with
    | .error err => .error err
    | .ok s => .ok (s, env)
  | .variable v, _, env =>
    match lookup v env with
    | .error err => .error err
    | .ok x =>
      match x.print with
      | .error err => .error err
      | .ok s => .ok (s, env)
  | .declare v f, dot, env =>
    match dot.field f with
    | .error err => .error err
    | .ok x => .ok ("", (v, x) :: env)
  | .range f body, dot, env =>
    match dot.field f with
    | .error err => .error err
    | .ok x =>
      match x.elements with
      | .error err => .error err
      | .ok elems =>
        match collect (elems.map (fun e => execList body e env)) with
        | .error err => .error err
        | .ok out => .ok (out, env)
  | .ifDot body, dot, env =>
    if dot.truth then
      match execList body dot env with
      | .error err => .error err
      | .ok out => .ok (out, env)
    else .ok ("", env)
/-- The output of a node list; variables declared in it end with it. -/
def execList : List Node → Value → Env → Except Error String
  | [], _, _ => .ok ""
  | n :: ns, dot, env =>
    match execNode n dot env with
    | .error err => .error err
    | .ok (s, env1) =>
      match execList ns dot env1 with
      | .error err => .error err
      | .ok out => .ok (s ++ out)
end

/-- Go `t.Execute(&tpl, data)` followed by `tpl.String()`. -/
def Execute (t : List Node) (data : dump) : Except Error String :=
  execList t (Value.dump data) []

end template

/-! ## The dump assembler -/

/-- The loop `for _, name := range tables` of `Dump`: `rest` are the names
still to come, `tablelist` the tables appended so far. -/
def Dump.tables (db : DB) : List String → List table → Except Error (List table)
  | [], tablelist => .ok tablelist
  | name :: rest, tablelist =>
    match createTable db name with
    | .ok t => Dump.tables db rest (tablelist ++ [t])
    | .error err => .error err

/-- Go `Dump`; `now` is the text of `time.Now().String()`. -/
def Dump (db : DB) (now : String) (dbname : String) : String × Option Error :=
  let p := ""
  match getServerVersion db with
  | (_, some err) => (p, some err)
  | (serverVersion, none) =>
    match createDatabaseSQL db dbname with
    | (_, some err) => (p, some err)
    | (dbsql, none) =>
      match getTables db with
      | (_, some err) => (p, some err)
      | (tables, none) =>
        match Dump.tables db tables [] with
        | .error err => (p, some err)
        | .ok tablelist =>
          let data : dump :=
            { DumpVersion := version
              Tables := tablelist
              DBName := dbname
              DBSQL := dbsql
              CompleteTime := now
              ServerVersion := serverVersion }
          match template.Parse getTemplate with
          | .error err => (p, some err)
          | .ok t =>
            match template.Execute t data with
            | .error err => (p, some err)
            | .ok out => (out, none)

/-! ## Closed forms used in the statements -/

open template

/-- The items of the template of `getTemplate`, as the lexer yields them. -/
def getTemplateItems : List Token :=
  [.text "-- Go SQL Dump ",
   .field "DumpVersion",
   .text "\n--\n-- ------------------------------------------------------\n-- Server version\t",
   .field "ServerVersion",
   .text ("\n\n/*!40101 SET @OLD_CHARACTER_SET_CLIENT=@@CHARACTER_SET_CLIENT */;\n" ++
     "/*!40101 SET @OLD_CHARACTER_SET_RESULTS=@@CHARACTER_SET_RESULTS */;\n" ++
     "/*!40101 SET @OLD_COLLATION_CONNECTION=@@COLLATION_CONNECTION */;\n" ++
     "/*!40101 SET NAMES utf8 */;\n" ++
     "/*!40103 SET @OLD_TIME_ZONE=@@TIME_ZONE */;\n" ++
     "/*!40103 SET TIME_ZONE='+00:00' */;\n" ++
     "/*!40014 SET @OLD_UNIQUE_CHECKS=@@UNIQUE_CHECKS, UNIQUE_CHECKS=0 */;\n" ++
     "/*!40014 SET @OLD_FOREIGN_KEY_CHECKS=@@FOREIGN_KEY_CHECKS, FOREIGN_KEY_CHECKS=0 */;\n" ++
     "/*!40101 SET @OLD_SQL_MODE=@@SQL_MODE, SQL_MODE='NO_AUTO_VALUE_ON_ZERO' */;\n" ++
     "/*!40111 SET @OLD_SQL_NOTES=@@SQL_NOTES, SQL_NOTES=0 */;\n\n\nDROP DATABASE IF EXISTS `"),
   .field "DBName",
   .text "`;\n\n",
   .field "DBSQL",
   .text ";\n\nUSE `",
   .field "DBName",
   .text "`;\n\n",
   .range "Tables",
   .text "\n--\n-- Table structure for table `",
   .field "Name",
   .text "`\n--\n\nDROP TABLE IF EXISTS `",
   .field "Name",
   .text ("`;\n/*!40101 SET @saved_cs_client     = @@character_set_client */;\n" ++
     "/*!40101 SET character_set_client = utf8 */;\n"),
   .field "SQL",
   .text (";\n/*!40101 SET character_set_client = @saved_cs_client */;\n" ++
     "--\n-- Dumping data for table `"),
   .field "Name",
   .text "`\n--\n\nLOCK TABLES `",
   .field "Name",
   .text ("` WRITE;\n" ++ "/*!40000 ALTER TABLE `"),
   .field "Name",
   .text "` DISABLE KEYS */;\n",
   .declare "name" "Name",
   .text "\n",
   .range "Values",
   .ifDot,
   .text "INSERT INTO `",
   .variable "name",
   .text "` VALUES ",
   .dot,
   .text ";\n",
   .endAction,
   .endAction,
   .text "\n\n/*!40000 ALTER TABLE `",
   .field "Name",
   .text "` ENABLE KEYS */;\nUNLOCK TABLES;\n",
   .endAction,
   .text "\n-- Dump completed on ",
   .field "CompleteTime"]


/-- The body of `{{range .Values}}` in the template of `getTemplate`. -/
def insertTree : List Node :=
  [.ifDot
    [.text "INSERT INTO `",
     .variable "name",
     .text "` VALUES ",
     .dot,
     .text ";\n"]]

/-- The body of `{{range .Tables}}` in the template of `getTemplate`. -/
def tableTree : List Node :=
  [.text "\n--\n-- Table structure for table `",
   .field "Name",
   .text "`\n--\n\nDROP TABLE IF EXISTS `",
   .field "Name",
   .text ("`;\n/*!40101 SET @saved_cs_client     = @@character_set_client */;\n" ++
     "/*!40101 SET character_set_client = utf8 */;\n"),
   .field "SQL",
   .text (";\n/*!40101 SET character_set_client = @saved_cs_client */;\n" ++
     "--\n-- Dumping data for table `"),
   .field "Name",
   .text "`\n--\n\nLOCK TABLES `",
   .field "Name",
   .text ("` WRITE;\n" ++ "/*!40000 ALTER TABLE `"),
   .field "Name",
   .text "` DISABLE KEYS */;\n",
   .declare "name" "Name",
   .text "\n",
   .range "Values" insertTree,
   .text "\n\n/*!40000 ALTER TABLE `",
   .field "Name",
   .text "` ENABLE KEYS */;\nUNLOCK TABLES;\n"]

/-- The parse tree of the template of `getTemplate`. -/
def getTemplateTree : List Node :=
  [.text "-- Go SQL Dump ",
   .field "DumpVersion",
   .text "\n--\n-- ------------------------------------------------------\n-- Server version\t",
   .field "ServerVersion",
   .text ("\n\n/*!40101 SET @OLD_CHARACTER_SET_CLIENT=@@CHARACTER_SET_CLIENT */;\n" ++
     "/*!40101 SET @OLD_CHARACTER_SET_RESULTS=@@CHARACTER_SET_RESULTS */;\n" ++
     "/*!40101 SET @OLD_COLLATION_CONNECTION=@@COLLATION_CONNECTION */;\n" ++
     "/*!40101 SET NAMES utf8 */;\n" ++
     "/*!40103 SET @OLD_TIME_ZONE=@@TIME_ZONE */;\n" ++
     "/*!40103 SET TIME_ZONE='+00:00' */;\n" ++
     "/*!40014 SET @OLD_UNIQUE_CHECKS=@@UNIQUE_CHECKS, UNIQUE_CHECKS=0 */;\n" ++
     "/*!40014 SET @OLD_FOREIGN_KEY_CHECKS=@@FOREIGN_KEY_CHECKS, FOREIGN_KEY_CHECKS=0 */;\n" ++
     "/*!40101 SET @OLD_SQL_MODE=@@SQL_MODE, SQL_MODE='NO_AUTO_VALUE_ON_ZERO' */;\n" ++
     "/*!40111 SET @OLD_SQL_NOTES=@@SQL_NOTES, SQL_NOTES=0 */;\n\n\nDROP DATABASE IF EXISTS `"),
   .field "DBName",
   .text "`;\n\n",
   .field "DBSQL",
   .text ";\n\nUSE `",
   .field "DBName",
   .text "`;\n\n",
   .range "Tables" tableTree,
   .text "\n-- Dump completed on ",
   .field "CompleteTime"]


/-- The line that the template writes for the batch `batch` of the table
`name`: nothing for the empty string. -/
def insertStatement (name batch : String) : String :=
  if batch ≠ "" then "INSERT INTO `" ++ (name ++ ("` VALUES " ++ (batch ++ (";\n" ++ "")))) else ""

/-- The text that the template writes for one table. -/
def tableText (t : table) : String :=
  concat
    ["\n--\n-- Table structure for table `", t.Name,
     "`\n--\n\nDROP TABLE IF EXISTS `", t.Name,
     "`;\n/*!40101 SET @saved_cs_client     = @@character_set_client */;\n" ++
       "/*!40101 SET character_set_client = utf8 */;\n",
     t.SQL,
     ";\n/*!40101 SET character_set_client = @saved_cs_client */;\n" ++
       "--\n-- Dumping data for table `",
     t.Name,
     "`\n--\n\nLOCK TABLES `", t.Name,
     "` WRITE;\n" ++ "/*!40000 ALTER TABLE `", t.Name,
     "` DISABLE KEYS */;\n",
     "",
     "\n",
     concat (t.Values.map (insertStatement t.Name)),
     "\n\n/*!40000 ALTER TABLE `", t.Name,
     "` ENABLE KEYS */;\nUNLOCK TABLES;\n"]

/-- The text that the template writes for a dump. -/
def dumpText (d : dump) : String :=
  concat
    ["-- Go SQL Dump ", d.DumpVersion,
     "\n--\n-- ------------------------------------------------------\n-- Server version\t",
     d.ServerVersion,
     "\n\n/*!40101 SET @OLD_CHARACTER_SET_CLIENT=@@CHARACTER_SET_CLIENT */;\n" ++
       "/*!40101 SET @OLD_CHARACTER_SET_RESULTS=@@CHARACTER_SET_RESULTS */;\n" ++
       "/*!40101 SET @OLD_COLLATION_CONNECTION=@@COLLATION_CONNECTION */;\n" ++
       "/*!40101 SET NAMES utf8 */;\n" ++
       "/*!40103 SET @OLD_TIME_ZONE=@@TIME_ZONE */;\n" ++
       "/*!40103 SET TIME_ZONE='+00:00' */;\n" ++
       "/*!40014 SET @OLD_UNIQUE_CHECKS=@@UNIQUE_CHECKS, UNIQUE_CHECKS=0 */;\n" ++
       "/*!40014 SET @OLD_FOREIGN_KEY_CHECKS=@@FOREIGN_KEY_CHECKS, FOREIGN_KEY_CHECKS=0 */;\n" ++
       "/*!40101 SET @OLD_SQL_MODE=@@SQL_MODE, SQL_MODE='NO_AUTO_VALUE_ON_ZERO' */;\n" ++
       "/*!40111 SET @OLD_SQL_NOTES=@@SQL_NOTES, SQL_NOTES=0 */;\n\n\nDROP DATABASE IF EXISTS `",
     d.DBName,
     "`;\n\n",
     d.DBSQL,
     ";\n\nUSE `",
     d.DBName,
     "`;\n\n",
     concat (d.Tables.map tableText),
     "\n-- Dump completed on ",
     d.CompleteTime]



/-- Whether an item prints the database name or a table name. -/
def isNamePlaceholder : Token → Bool
  | .field f => f = "DBName" || f = "Name"
  | .variable v => v = "name"
  | _ => false

/-- Whether a text ends in a backtick that is not preceded by another. -/
def endsInOneBacktick (s : String) : Bool :=
  match s.data.reverse with
  | '`' :: '`' :: _ => false
  | '`' :: _ => true
  | _ => false

/-- Whether a text starts with a backtick that is not followed by another. -/
def startsWithOneBacktick (s : String) : Bool :=
  match s.data with
  | '`' :: '`' :: _ => false
  | '`' :: _ => true
  | _ => false

/-- Whether every item of the list that prints a name stands between a text
that ends in one backtick and a text that starts with one; `prev` is the item
before the list. -/
def backtickQuoted : Option Token → List Token → Bool
  | _, [] => true
  | prev, item :: rest =>
    (!isNamePlaceholder item ||
      ((match prev with
        | some (.text a) => endsInOneBacktick a
        | _ => false) &&
       (match rest with
        | .text b :: _ => startsWithOneBacktick b
        | _ => false))) &&
    backtickQuoted (some item) rest

/-! ## Closed forms of the row extractor and of the assembler -/

/-- The slices of `data_text` that the batching loop of `createTableValues`
passes to `strings.Join`, in order: the loop without the joining. -/
def createTableValues.groups (data_text : List String) : List (List String) :=
  if 1000 < data_text.length then
    data_text.take 1000 :: createTableValues.groups (data_text.drop 1000)
  else
    [data_text]
termination_by data_text.length
decreasing_by simp only [List.length_drop]; omega

/-- The error with which `createTable db name` fails: that of `createTableSQL`,
else that of `createTableValues`; `none` when both succeed. -/
def tableError (db : DB) (name : String) : Option Error :=
  (createTableSQL db name).2 <|> (createTableValues db name).2

/-- The table that `createTable db name` builds when both calls succeed. -/
def tableOf (db : DB) (name : String) : table :=
  { Name := name, SQL := (createTableSQL db name).1, Values := (createTableValues db name).1 }

/-- The error of the first failing sub-call of `Dump` in pipeline order, as the
specification words it: server version, database definition, table list, then
the tables in enumeration order, definition before rows; `none` when no
sub-call fails. -/
def firstError (db : DB) (dbname : String) : Option Error :=
  (getServerVersion db).2 <|> (createDatabaseSQL db dbname).2 <|> (getTables db).2 <|>
    (getTables db).1.findSome? (tableError db)

/-! ## Example databases -/

/-- The rows `(1, 'a')` and `(2, NULL)` of a table `t(id int, name varchar)`,
the values as text. -/
def exampleRows : Rows :=
  { Columns := .ok ["id", "name"]
    Data := [.ok [some "1", some "a"], .ok [some "2", none]]
    Err := none }

/-- The rows of a table with the three columns `name`, `note`, `tag`: the
values `O'Brien`, NULL, `x,y` and NULL, `b`, NULL. -/
def quoteRows : Rows :=
  { Columns := .ok ["name", "note", "tag"]
    Data := [.ok [some "O'Brien", none, some "x,y"], .ok [none, some "b", none]]
    Err := none }

/-- A handle on the database `d` with the single table `t(id int, name varchar)`
holding the rows `(1, 'a')` and `(2, NULL)`; the driver delivers values as
text. -/
def exampleDB : DB where
  QueryRow q :=
    if q = "SELECT version()" then .ok [some "8.0.36"]
    else if q = "SHOW CREATE DATABASE `d`" then .ok [some "d", some "CREATE DATABASE `d`"]
    else if q = "SHOW CREATE TABLE `t`" then
      .ok [some "t", some "CREATE TABLE `t` (`id` int, `name` varchar(16))"]
    else .error "sql: no rows in result set"
  Query q :=
    if q = "SHOW TABLES" then
      .ok { Columns := .ok ["Tables_in_d"], Data := [.ok [some "t"]], Err := none }
    else if q = "SELECT * FROM `t`" then .ok exampleRows
    else .error "Error 1146: Table does not exist"

/-- The handle `exampleDB` with another answer to `SELECT * FROM t`. -/
def exampleDB.withRows (rows : Except Error Rows) : DB where
  QueryRow := exampleDB.QueryRow
  Query q := if q = "SELECT * FROM `t`" then rows else exampleDB.Query q

/-- The handle `exampleDB` with another answer to the single-row query `q0`. -/
def exampleDB.withRow (q0 : String) (row : RowSrc) : DB where
  QueryRow q := if q = q0 then row else exampleDB.QueryRow q
  Query := exampleDB.Query

/-- The rows of a table with one column and 1000 rows, all NULL. -/
def thousandRows : Rows :=
  { Columns := .ok ["c"], Data := (List.replicate 1000 [none]).map Except.ok, Err := none }

/-- The rows of a table whose result reports no column, though it holds rows. -/
def noColumnRows : Rows :=
  { Columns := .ok [], Data := [.ok [some "1"], .ok []], Err := none }

/-- The text of a table up to and including its `LOCK TABLES` line. -/
def tableIntro (t : table) : String :=
  "\n--\n-- Table structure for table `" ++ t.Name ++
  "`\n--\n\nDROP TABLE IF EXISTS `" ++ t.Name ++
  "`;\n/*!40101 SET @saved_cs_client     = @@character_set_client */;\n" ++
  "/*!40101 SET character_set_client = utf8 */;\n" ++
  t.SQL ++
  ";\n/*!40101 SET character_set_client = @saved_cs_client */;\n" ++
  "--\n-- Dumping data for table `" ++ t.Name ++
  "`\n--\n\nLOCK TABLES `" ++ t.Name ++ "` WRITE;\n"

/-- The text of a dump before its first table. -/
def dumpIntro (d : dump) : String :=
  "-- Go SQL Dump " ++ d.DumpVersion ++
  "\n--\n-- ------------------------------------------------------\n-- Server version\t" ++
  d.ServerVersion ++
  "\n\n/*!40101 SET @OLD_CHARACTER_SET_CLIENT=@@CHARACTER_SET_CLIENT */;\n" ++
  "/*!40101 SET @OLD_CHARACTER_SET_RESULTS=@@CHARACTER_SET_RESULTS */;\n" ++
  "/*!40101 SET @OLD_COLLATION_CONNECTION=@@COLLATION_CONNECTION */;\n" ++
  "/*!40101 SET NAMES utf8 */;\n" ++
  "/*!40103 SET @OLD_TIME_ZONE=@@TIME_ZONE */;\n" ++
  "/*!40103 SET TIME_ZONE='+00:00' */;\n" ++
  "/*!40014 SET @OLD_UNIQUE_CHECKS=@@UNIQUE_CHECKS, UNIQUE_CHECKS=0 */;\n" ++
  "/*!40014 SET @OLD_FOREIGN_KEY_CHECKS=@@FOREIGN_KEY_CHECKS, FOREIGN_KEY_CHECKS=0 */;\n" ++
  "/*!40101 SET @OLD_SQL_MODE=@@SQL_MODE, SQL_MODE='NO_AUTO_VALUE_ON_ZERO' */;\n" ++
  "/*!40111 SET @OLD_SQL_NOTES=@@SQL_NOTES, SQL_NOTES=0 */;\n\n\nDROP DATABASE IF EXISTS `" ++
  d.DBName ++ "`;\n\n" ++ d.DBSQL ++ ";\n\nUSE `" ++ d.DBName ++ "`;\n\n"

end mysqldump

/-! # Theorems -/

namespace mysqldump
open template

set_option maxRecDepth 1000000 in
theorem lex_getTemplate : lex getTemplate = .ok getTemplateItems := by decide!

theorem Parse_getTemplate : Parse getTemplate = .ok getTemplateTree := by
  unfold Parse
  rw [lex_getTemplate]
  rfl

/-! ## The row extractor -/

theorem groups_of_lt {d : List String} (h : 1000 < d.length) :
    createTableValues.groups d = d.take 1000 :: createTableValues.groups (d.drop 1000) := by
  rw [createTableValues.groups, if_pos h]

theorem groups_of_not_lt {d : List String} (h : ¬ 1000 < d.length) :
    createTableValues.groups d = [d] := by
  rw [createTableValues.groups, if_neg h]

/-- The batching loop joins the slices `groups data_text`, one batch each, and
appends them to `batches`. -/
theorem batch_eq_groups (data_text batches : List String) :
    createTableValues.batch data_text batches =
      batches ++ (createTableValues.groups data_text).map (fun g => strings.Join g ",") := by
  induction data_text, batches using createTableValues.batch.induct with
  | case1 d b h ih =>
    rw [createTableValues.batch, if_pos h, ih, groups_of_lt h]
    simp
  | case2 d b h =>
    rw [createTableValues.batch, if_neg h, groups_of_not_lt h]
    simp

theorem groups_flatten (d : List String) : (createTableValues.groups d).flatten = d := by
  induction d using createTableValues.groups.induct with
  | case1 d h ih =>
    rw [groups_of_lt h, List.flatten_cons, ih, List.take_append_drop]
  | case2 d h =>
    rw [groups_of_not_lt h]; simp

theorem groups_sum_length (d : List String) :
    ((createTableValues.groups d).map List.length).sum = d.length := by
  induction d using createTableValues.groups.induct with
  | case1 d h ih =>
    rw [groups_of_lt h, List.map_cons, List.sum_cons, ih, List.length_take, List.length_drop]
    omega
  | case2 d h =>
    rw [groups_of_not_lt h]; simp

theorem groups_length (d : List String) :
    (createTableValues.groups d).length = (d.length - 1) / 1000 + 1 := by
  induction d using createTableValues.groups.induct with
  | case1 d h ih =>
    rw [groups_of_lt h, List.length_cons, ih, List.length_drop]
    omega
  | case2 d h =>
    rw [groups_of_not_lt h]
    simp only [List.length_singleton]
    omega

/-- The slices are full ones of 1000 tuples followed by one last slice. -/
theorem groups_split (d : List String) :
    ∃ pre last, createTableValues.groups d = pre ++ [last] ∧
      pre.length = (d.length - 1) / 1000 ∧
      (∀ g ∈ pre, g.length = 1000) ∧
      last.length = d.length - 1000 * ((d.length - 1) / 1000) := by
  induction d using createTableValues.groups.induct with
  | case1 d h ih =>
    obtain ⟨pre, last, he, hn, hp, hl⟩ := ih
    refine ⟨d.take 1000 :: pre, last, ?_, ?_, ?_, ?_⟩
    · rw [groups_of_lt h, he]; rfl
    · rw [List.length_cons, hn, List.length_drop]; omega
    · intro g hg
      rcases List.mem_cons.mp hg with rfl | hg
      · rw [List.length_take]; omega
      · exact hp g hg
    · rw [hl, List.length_drop]; omega
  | case2 d h =>
    refine ⟨[], d, ?_, ?_, ?_, ?_⟩
    · rw [groups_of_not_lt h]; rfl
    · simp only [List.length_nil]; omega
    · intro g hg; cases hg
    · have : (d.length - 1) / 1000 = 0 := by omega
      rw [this]; omega

theorem append_singleton_inj {α : Type} {p q : List α} {a b : α}
    (h : p ++ [a] = q ++ [b]) : p = q ∧ a = b := by
  have h1 := congrArg List.reverse h
  simp only [List.reverse_append, List.reverse_cons, List.reverse_nil, List.nil_append,
    List.singleton_append, List.cons.injEq, List.reverse_inj] at h1
  exact ⟨h1.2, h1.1⟩

/-- The scan loop appends one tuple per row. -/
theorem read_length (n : Nat) (rows : List RowSrc) :
    ∀ (acc data_text : List String), createTableValues.read n rows acc = .ok data_text →
      data_text.length = acc.length + rows.length := by
  induction rows with
  | nil =>
    intro acc data_text h
    simp only [createTableValues.read, Except.ok.injEq] at h
    simp [← h]
  | cons r rest ih =>
    intro acc data_text h
    rw [createTableValues.read] at h
    cases hs : ScanPtrs r n with
    | error e => rw [hs] at h; cases h
    | ok data =>
      rw [hs] at h
      rw [ih _ _ h]
      simp only [List.length_append, List.length_cons, List.length_nil]
      omega

/-- The tuples of rows that all scan: one per row, in row order. -/
theorem read_ok (n : Nat) (raws : List (List (Option String)))
    (hw : ∀ r ∈ raws, r.length = n) (acc : List String) :
    createTableValues.read n (raws.map Except.ok) acc =
      .ok (acc ++ raws.map (fun r => "(" ++ strings.Join
        (r.map (fun c => Option.elim c "null" (fun v => "'" ++ v ++ "'"))) "," ++ ")")) := by
  induction raws generalizing acc with
  | nil => simp [createTableValues.read]
  | cons r rest ih =>
    have hr : r.length = n := hw r (List.mem_cons_self r rest)
    have hrest := ih (fun x hx => hw x (List.mem_cons_of_mem r hx))
    have hcol : (fun c => dataString (scanNullStringPtr c)) =
        (fun c : Option String => Option.elim c "null" (fun v => "'" ++ v ++ "'")) := by
      funext c
      cases c <;> rfl
    simp only [List.map_cons, createTableValues.read, ScanPtrs, hr, if_true, List.map_map,
      Function.comp_def, hcol, hrest, List.append_assoc, List.singleton_append]

/-- The result of `createTableValues` once the query, the column list and the
scan of every row have succeeded. -/
theorem createTableValues_of_read (db : DB) (name : String) (rows : Rows)
    (columns data_text : List String)
    (hq : db.Query ("SELECT * FROM `" ++ name ++ "`") = .ok rows)
    (hc : rows.Columns = .ok columns) (hne : columns ≠ [])
    (hr : createTableValues.read columns.length rows.Data [] = .ok data_text) :
    createTableValues db name =
      ((createTableValues.groups data_text).map (fun g => strings.Join g ","), rows.Err) := by
  have hl : columns.length ≠ 0 := fun h => hne (List.length_eq_zero.mp h)
  simp only [createTableValues, hq, hc, hl, if_false, hr, batch_eq_groups, List.nil_append]


theorem ceil_div_thousand (N : Nat) (h : 0 < N) : ⌈(N : ℚ) / 1000⌉₊ = (N - 1) / 1000 + 1 := by
  rw [Nat.ceil_eq_iff (by omega)]
  constructor
  · rw [lt_div_iff₀ (by norm_num)]
    have h1 : ((N - 1) / 1000 + 1 - 1) * 1000 < N := by omega
    exact_mod_cast h1
  · rw [div_le_iff₀ (by norm_num)]
    have h1 : N ≤ ((N - 1) / 1000 + 1) * 1000 := by omega
    exact_mod_cast h1

theorem intercalate_go_append (x y sep : String) (l : List String) :
    String.intercalate.go (x ++ y) sep l = x ++ String.intercalate.go y sep l := by
  induction l generalizing y with
  | nil => rfl
  | cons a l ih =>
    simp only [String.intercalate.go, String.append_assoc]
    rw [ih]

/-- The model of Go `strings.Join` is the library's `String.intercalate`: the
elements in order with the separator between each two. -/
theorem Join_eq_intercalate (l : List String) (sep : String) :
    strings.Join l sep = sep.intercalate l := by
  induction l with
  | nil => rfl
  | cons a l ih =>
    cases l with
    | nil => rfl
    | cons b rest =>
      rw [strings.Join, ih]
      simp only [String.intercalate, String.intercalate.go]
      rw [intercalate_go_append]

/-- C1: when the query, the column list and every row's scan succeed,
`createTableValues` renders a NULL column as `null` and a column with text `v`
as `'v'`, the text unchanged whatever it holds; the tuple of a row is `(`, the
renderings in column order with `,` between each two (`String.intercalate`),
`)`: for two columns `(` ++ first ++ `,` ++ second ++ `)`; the tuples stand in
row order and are what the batches are built from. -/
theorem createTableValues_tuples (db : DB) (name : String) (rows : Rows)
    (columns : List String) (raws : List (List (Option String)))
    (hq : db.Query ("SELECT * FROM `" ++ name ++ "`") = .ok rows)
    (hc : rows.Columns = .ok columns) (hne : columns ≠ [])
    (hd : rows.Data = raws.map Except.ok)
    (hw : ∀ r ∈ raws, r.length = columns.length) :
    (dataString none = "null" ∧ (∀ s, dataString (some ⟨s, false⟩) = "null") ∧
      ∀ v, dataString (some ⟨v, true⟩) = "'" ++ v ++ "'") ∧
    (scanNullStringPtr none = none ∧ ∀ v, scanNullStringPtr (some v) = some ⟨v, true⟩) ∧
    createTableValues.read columns.length rows.Data [] =
      .ok (raws.map (fun r => "(" ++ String.intercalate ","
        (r.map (fun c => Option.elim c "null" (fun v => "'" ++ v ++ "'"))) ++ ")")) ∧
    createTableValues db name =
      ((createTableValues.groups (raws.map (fun r => "(" ++ String.intercalate ","
        (r.map (fun c => Option.elim c "null" (fun v => "'" ++ v ++ "'"))) ++ ")"))).map
          (fun g => String.intercalate "," g), rows.Err) ∧
    (∀ a b : Option String,
      createTableValues.read 2 [.ok [a, b]] [] =
        .ok ["(" ++ Option.elim a "null" (fun v => "'" ++ v ++ "'") ++ "," ++
          Option.elim b "null" (fun v => "'" ++ v ++ "'") ++ ")"]) := by
  have hr := read_ok columns.length raws hw []
  rw [← hd, List.nil_append] at hr
  have hv := createTableValues_of_read db name rows columns _ hq hc hne hr
  simp only [Join_eq_intercalate] at hr hv
  refine ⟨⟨rfl, fun _ => rfl, fun _ => rfl⟩, ⟨rfl, fun _ => rfl⟩, hr, hv, ?_⟩
  intro a b
  have h2 := read_ok 2 [[a, b]] (fun r hr => by rw [List.mem_singleton.mp hr]; rfl) []
  simp only [List.map_cons, List.map_nil, List.nil_append, strings.Join,
    String.append_assoc] at h2
  simp only [String.append_assoc]
  exact h2

theorem createTableValues_tuples_witness :
    (exampleDB.withRows (.ok quoteRows)).Query ("SELECT * FROM `" ++ "t" ++ "`") = .ok quoteRows ∧
    createTableValues.read 3 quoteRows.Data [] =
      .ok ["('O'Brien',null,'x,y')", "(null,'b',null)"] ∧
    createTableValues (exampleDB.withRows (.ok quoteRows)) "t" =
      (["('O'Brien',null,'x,y'),(null,'b',null)"], none) := by
  have h := createTableValues_tuples (exampleDB.withRows (.ok quoteRows)) "t" quoteRows
    ["name", "note", "tag"] [[some "O'Brien", none, some "x,y"], [none, some "b", none]]
    (by decide) rfl (by decide) rfl (by decide)
  exact ⟨by decide, h.2.2.1.trans (by decide),
    h.2.2.2.1.trans (by rw [groups_of_not_lt (by decide)]; decide)⟩

/-- C2: when the scan yields the tuples `data_text` (one per row), the batches
that `createTableValues` returns are the joins of the slices
`groups data_text`, and these slices concatenate in order to `data_text`:
no tuple is lost, duplicated or reordered, and the slices hold
`data_text.length` tuples in all, the number of rows. -/
theorem createTableValues_batches_concat (db : DB) (name : String) (rows : Rows)
    (columns data_text : List String)
    (hq : db.Query ("SELECT * FROM `" ++ name ++ "`") = .ok rows)
    (hc : rows.Columns = .ok columns) (hne : columns ≠ [])
    (hr : createTableValues.read columns.length rows.Data [] = .ok data_text) :
    createTableValues db name =
      ((createTableValues.groups data_text).map (fun g => strings.Join g ","), rows.Err) ∧
    (createTableValues.groups data_text).flatten = data_text ∧
    ((createTableValues.groups data_text).map List.length).sum = data_text.length ∧
    data_text.length = rows.Data.length := by
  refine ⟨createTableValues_of_read db name rows columns _ hq hc hne hr,
    groups_flatten _, groups_sum_length _, ?_⟩
  rw [read_length _ _ _ _ hr, List.length_nil, Nat.zero_add]

theorem createTableValues_batches_concat_witness :
    createTableValues.read 2 exampleRows.Data [] =
      .ok ["('1','a')", "('2',null)"] ∧
    (createTableValues.groups ["('1','a')", "('2',null)"]).flatten =
      ["('1','a')", "('2',null)"] :=
  ⟨by decide,
   (createTableValues_batches_concat exampleDB "t"
exampleRows
      ["id", "name"] ["('1','a')", "('2',null)"] (by decide) rfl (by decide) (by decide)).2.1⟩

/-- C3: for a table whose scan yields `N > 0` tuples the number of batches is
`ceil(N / 1000)`; 2500 tuples give three batches built from 1000, 1000 and 500
tuples; for `N = 0` the result is the one batch `""`. -/
theorem createTableValues_batch_count (db : DB) (name : String) (rows : Rows)
    (columns data_text : List String)
    (hq : db.Query ("SELECT * FROM `" ++ name ++ "`") = .ok rows)
    (hc : rows.Columns = .ok columns) (hne : columns ≠ [])
    (hr : createTableValues.read columns.length rows.Data [] = .ok data_text) :
    createTableValues db name =
      ((createTableValues.groups data_text).map (fun g => strings.Join g ","), rows.Err) ∧
    data_text.length = rows.Data.length ∧
    (0 < data_text.length →
      (createTableValues db name).1.length = ⌈(data_text.length : ℚ) / 1000⌉₊) ∧
    (data_text.length = 2500 → ∃ a b c, createTableValues.groups data_text = [a, b, c] ∧
      a.length = 1000 ∧ b.length = 1000 ∧ c.length = 500) ∧
    (data_text.length = 0 → (createTableValues db name).1 = [""]) := by
  have hv := createTableValues_of_read db name rows columns _ hq hc hne hr
  refine ⟨hv, ?_, ?_, ?_, ?_⟩
  · rw [read_length _ _ _ _ hr, List.length_nil, Nat.zero_add]
  · intro hN
    rw [hv, ceil_div_thousand _ hN]
    simp only [List.length_map, groups_length]
  · intro hN
    have h1 : 1000 < data_text.length := by omega
    have h2 : 1000 < (data_text.drop 1000).length := by rw [List.length_drop]; omega
    have h3 : ¬ 1000 < ((data_text.drop 1000).drop 1000).length := by
      rw [List.length_drop, List.length_drop]; omega
    refine ⟨_, _, _, by rw [groups_of_lt h1, groups_of_lt h2, groups_of_not_lt h3], ?_, ?_, ?_⟩
    · rw [List.length_take]; omega
    · rw [List.length_take, List.length_drop]; omega
    · rw [List.length_drop, List.length_drop]; omega
  · intro hN
    have h0 : data_text = [] := List.length_eq_zero.mp hN
    subst h0
    rw [hv, groups_of_not_lt (by simp)]
    rfl

theorem createTableValues_batch_count_witness :
    createTableValues.read 2 exampleRows.Data [] =
      .ok ["('1','a')", "('2',null)"] ∧
    (createTableValues exampleDB "t").1.length = ⌈((2 : Nat) : ℚ) / 1000⌉₊ :=
  ⟨by decide,
   (createTableValues_batch_count exampleDB "t"
exampleRows
      ["id", "name"] ["('1','a')", "('2',null)"] (by decide) rfl (by decide) (by decide)).2.2.1
      (by decide)⟩



theorem withRows_Query (r : Except Error Rows) :
    (exampleDB.withRows r).Query ("SELECT * FROM `" ++ "t" ++ "`") = r := by
  have h : ("SELECT * FROM `" ++ "t" ++ "`" : String) = "SELECT * FROM `t`" := by decide
  rw [h]
  simp only [exampleDB.withRows, if_true]

/-- C4 (amended): when the scan yields `N` tuples, the slices joined into
batches are `ceil(N / 1000) - 1` slices (none for `N = 0`) of exactly 1000
tuples each, followed by one last slice with the remaining tuples: `N mod 1000`
of them when 1000 does not divide `N`, 1000 when `N` is a positive multiple of
1000, and none exactly when `N = 0`; the last slice holds at most 1000 tuples
and its batch is always returned. -/
theorem createTableValues_batch_sizes (db : DB) (name : String) (rows : Rows)
    (columns data_text : List String)
    (hq : db.Query ("SELECT * FROM `" ++ name ++ "`") = .ok rows)
    (hc : rows.Columns = .ok columns) (hne : columns ≠ [])
    (hr : createTableValues.read columns.length rows.Data [] = .ok data_text) :
    ∃ pre last,
      createTableValues db name =
        ((pre ++ [last]).map (fun g => strings.Join g ","), rows.Err) ∧
      createTableValues.groups data_text = pre ++ [last] ∧
      pre.length = ⌈(data_text.length : ℚ) / 1000⌉₊ - 1 ∧
      (∀ g ∈ pre, g.length = 1000) ∧
      last.length = data_text.length - 1000 * pre.length ∧
      last.length ≤ 1000 ∧
      (data_text.length % 1000 ≠ 0 → last.length = data_text.length % 1000) ∧
      (0 < data_text.length → data_text.length % 1000 = 0 → last.length = 1000) ∧
      (last.length = 0 ↔ data_text.length = 0) := by
  obtain ⟨pre, last, he, hn, hp, hl⟩ := groups_split data_text
  have hv := createTableValues_of_read db name rows columns _ hq hc hne hr
  rw [he] at hv
  have hceil : ⌈(data_text.length : ℚ) / 1000⌉₊ - 1 = (data_text.length - 1) / 1000 := by
    rcases Nat.eq_zero_or_pos data_text.length with h0 | hpos
    · rw [h0]; simp
    · rw [ceil_div_thousand _ hpos]; omega
  refine ⟨pre, last, hv, he, by rw [hceil, hn], hp, by rw [hn, hl], ?_, ?_, ?_, ?_⟩
  · omega
  · intro h; omega
  · intro h1 h2; omega
  · omega

theorem createTableValues_batch_sizes_witness :
    createTableValues.read 2 exampleRows.Data [] = .ok ["('1','a')", "('2',null)"] ∧
    ∃ pre last,
      createTableValues exampleDB "t" =
        ((pre ++ [last]).map (fun g => strings.Join g ","), exampleRows.Err) ∧
      createTableValues.groups ["('1','a')", "('2',null)"] = pre ++ [last] ∧
      pre.length = ⌈((["('1','a')", "('2',null)"] : List String).length : ℚ) / 1000⌉₊ - 1 ∧
      (∀ g ∈ pre, g.length = 1000) ∧
      last.length = (["('1','a')", "('2',null)"] : List String).length - 1000 * pre.length ∧
      last.length ≤ 1000 ∧
      ((["('1','a')", "('2',null)"] : List String).length % 1000 ≠ 0 →
        last.length = (["('1','a')", "('2',null)"] : List String).length % 1000) ∧
      (0 < (["('1','a')", "('2',null)"] : List String).length →
        (["('1','a')", "('2',null)"] : List String).length % 1000 = 0 → last.length = 1000) ∧
      (last.length = 0 ↔ (["('1','a')", "('2',null)"] : List String).length = 0) :=
  ⟨by decide,
   createTableValues_batch_sizes exampleDB "t" exampleRows ["id", "name"]
     ["('1','a')", "('2',null)"] (by decide) rfl (by decide) (by decide)⟩

/-- C4 as stated fails for a table of 1000 rows: the scan yields 1000 tuples,
`createTableValues` returns one batch, the join of all 1000 tuples, so there is
no batch before the last one (the claim counts `ceil(1000 / 1000) = 1`) and the
last batch is built from 1000 tuples (the claim says `1000 mod 1000 = 0`, fewer
than 1000). -/
theorem createTableValues_batch_sizes_counterexample :
    createTableValues.read 1 thousandRows.Data [] = .ok (List.replicate 1000 "(null)") ∧
    createTableValues (exampleDB.withRows (.ok thousandRows)) "t" =
      ([strings.Join (List.replicate 1000 "(null)") ","], none) ∧
    createTableValues.groups (List.replicate 1000 "(null)") = [List.replicate 1000 "(null)"] ∧
    ¬ ∃ pre last, createTableValues.groups (List.replicate 1000 "(null)") = pre ++ [last] ∧
        pre.length = ⌈((1000 : Nat) : ℚ) / 1000⌉₊ ∧ last.length = 1000 % 1000 ∧
        last.length < 1000 := by
  have hr : createTableValues.read 1 thousandRows.Data [] = .ok (List.replicate 1000 "(null)") := by
    have h := read_ok 1 (List.replicate 1000 [none])
      (fun r hr => by rw [(List.mem_replicate.mp hr).2]; rfl) []
    have ht : "(" ++ strings.Join
        (([none] : List (Option String)).map
          (fun c => Option.elim c "null" (fun v => "'" ++ v ++ "'"))) "," ++ ")" = "(null)" := by
      decide
    simp only [List.map_replicate, List.nil_append] at h
    rw [ht] at h
    unfold thousandRows
    simp only [List.map_replicate]
    exact h
  have hlen : (List.replicate 1000 "(null)").length = 1000 := List.length_replicate _ _
  have hnot : ¬ 1000 < (List.replicate 1000 "(null)").length := by
    rw [hlen]; exact Nat.lt_irrefl _
  have hg : createTableValues.groups (List.replicate 1000 "(null)") =
      [List.replicate 1000 "(null)"] := groups_of_not_lt hnot
  refine ⟨hr, ?_, hg, ?_⟩
  · have h := createTableValues_of_read (exampleDB.withRows (.ok thousandRows)) "t" thousandRows
      ["c"] _ (withRows_Query _) rfl (by decide) hr
    rw [h, hg]; rfl
  · rintro ⟨pre, last, he, -, hl, -⟩
    rw [hg] at he
    have h2 := (append_singleton_inj (p := []) he).2
    rw [← h2, hlen] at hl
    omega

/-! ## The template -/

theorem collect_ok {α : Type} (f : α → String) (g : α → Except Error String) (l : List α)
    (h : ∀ a ∈ l, g a = .ok (f a)) :
    collect (l.map g) = .ok (concat (l.map f)) := by
  induction l with
  | nil => rfl
  | cons a l ih =>
    have ha := h a (List.mem_cons_self a l)
    have hl := ih (fun b hb => h b (List.mem_cons_of_mem a hb))
    simp only [List.map_cons, collect, ha, hl, concat]

theorem exec_insertTree (name b : String) (env : Env) :
    execList insertTree (Value.string b) (("name", Value.string name) :: env) =
      .ok (insertStatement name b) := by
  by_cases hb : b = ""
  · subst hb
    simp [insertTree, execList, execNode, Value.truth, insertStatement]
  · simp [insertTree, execList, execNode, Value.truth, insertStatement, hb, lookup, Value.print]

theorem collect_insertTree (name : String) (env : Env) (values : List String) :
    collect ((values.map Value.string).map
      (fun e => execList insertTree e (("name", Value.string name) :: env))) =
    .ok (concat (values.map (insertStatement name))) := by
  rw [List.map_map]
  exact collect_ok _ _ _ (fun b _ => exec_insertTree name b env)

theorem exec_tableTree (t : table) :
    execList tableTree (Value.table t) [] = .ok (tableText t) := by
  have h := collect_insertTree t.Name [] t.Values
  unfold tableTree
  generalize insertTree = body at h ⊢
  simp only [execList, execNode, Value.field, Value.print, Value.elements, h, tableText, concat]

theorem collect_tableTree (tables : List table) :
    collect ((tables.map Value.table).map (fun e => execList tableTree e [])) =
    .ok (concat (tables.map tableText)) := by
  rw [List.map_map]
  exact collect_ok _ _ _ (fun t _ => exec_tableTree t)

/-- Executing the parsed template of `getTemplate` never fails and writes
`dumpText`. -/
theorem Execute_getTemplateTree (d : dump) :
    Execute getTemplateTree d = .ok (dumpText d) := by
  have h := collect_tableTree d.Tables
  unfold getTemplateTree
  generalize tableTree = body at h ⊢
  simp only [Execute, execList, execNode, Value.field, Value.print, Value.elements, h,
    dumpText, concat]

/-! ## The assembler -/

theorem createTable_of_tableError_none (db : DB) (name : String)
    (h : tableError db name = none) : createTable db name = .ok (tableOf db name) := by
  unfold tableError at h
  unfold createTable tableOf
  rcases h1 : createTableSQL db name with ⟨sql, _ | e1⟩
  · rcases h2 : createTableValues db name with ⟨vals, _ | e2⟩
    · rfl
    · rw [h1, h2] at h; cases h
  · rw [h1] at h; cases h

theorem createTable_of_tableError_some (db : DB) (name : String) (e : Error)
    (h : tableError db name = some e) : createTable db name = .error e := by
  unfold tableError at h
  unfold createTable
  rcases h1 : createTableSQL db name with ⟨sql, _ | e1⟩
  · rcases h2 : createTableValues db name with ⟨vals, _ | e2⟩
    · rw [h1, h2] at h; cases h
    · rw [h1, h2] at h
      cases h; rfl
  · rw [h1] at h
    cases h; rfl

theorem Dump_tables_ok (db : DB) (names : List String)
    (h : names.findSome? (tableError db) = none) (acc : List table) :
    Dump.tables db names acc = .ok (acc ++ names.map (tableOf db)) := by
  induction names generalizing acc with
  | nil => simp [Dump.tables]
  | cons n rest ih =>
    rw [List.findSome?_cons] at h
    cases hn : tableError db n with
    | some e => rw [hn] at h; cases h
    | none =>
      rw [hn] at h
      rw [Dump.tables, createTable_of_tableError_none db n hn]
      simp only [ih h, List.map_cons, List.append_assoc, List.singleton_append]

theorem Dump_tables_error (db : DB) (names : List String) (e : Error)
    (h : names.findSome? (tableError db) = some e) (acc : List table) :
    Dump.tables db names acc = .error e := by
  induction names generalizing acc with
  | nil => cases h
  | cons n rest ih =>
    rw [List.findSome?_cons] at h
    cases hn : tableError db n with
    | some e1 =>
      rw [hn] at h
      cases h
      rw [Dump.tables, createTable_of_tableError_some db n _ hn]
    | none =>
      rw [hn] at h
      rw [Dump.tables, createTable_of_tableError_none db n hn]
      simp only [ih h]

/-- `Dump` fails with the error of the first failing sub-call and returns no
text. -/
theorem Dump_of_firstError_some (db : DB) (now dbname : String) (e : Error)
    (h : firstError db dbname = some e) : Dump db now dbname = ("", some e) := by
  unfold firstError at h
  unfold Dump
  rcases h1 : getServerVersion db with ⟨sv, _ | e1⟩
  · rcases h2 : createDatabaseSQL db dbname with ⟨dbsql, _ | e2⟩
    · rcases h3 : getTables db with ⟨tables, _ | e3⟩
      · rw [h1, h2, h3] at h
        have h4 : tables.findSome? (tableError db) = some e := h
        simp only [Dump_tables_error db tables e h4]
      · rw [h1, h2, h3] at h
        cases h; rfl
    · rw [h1, h2] at h
      cases h; rfl
  · rw [h1] at h
    cases h; rfl

/-- `Dump` succeeds when no sub-call fails, and returns the text of the
assembled document. -/
theorem Dump_of_firstError_none (db : DB) (now dbname : String)
    (h : firstError db dbname = none) :
    Dump db now dbname =
      (dumpText
        { DumpVersion := version
          ServerVersion := (getServerVersion db).1
          DBName := dbname
          DBSQL := (createDatabaseSQL db dbname).1
          Tables := (getTables db).1.map (tableOf db)
          CompleteTime := now }, none) := by
  unfold firstError at h
  unfold Dump
  rcases h1 : getServerVersion db with ⟨sv, _ | e1⟩
  · rcases h2 : createDatabaseSQL db dbname with ⟨dbsql, _ | e2⟩
    · rcases h3 : getTables db with ⟨tables, _ | e3⟩
      · rw [h1, h2, h3] at h
        have h4 : tables.findSome? (tableError db) = none := h
        simp only [Dump_tables_ok db tables h4, Parse_getTemplate, Execute_getTemplateTree,
          List.nil_append]
      · rw [h1, h2, h3] at h
        cases h
    · rw [h1, h2] at h
      cases h
  · rw [h1] at h
    cases h



theorem tableError_none_of_createTable_ok (db : DB) (name : String) (t : table)
    (h : createTable db name = .ok t) : tableError db name = none := by
  cases he : tableError db name with
  | none => rfl
  | some e => rw [createTable_of_tableError_some db name e he] at h; cases h

/-- The first error is that of the table `name` when everything before it in
the pipeline succeeds. -/
theorem firstError_at_table (db : DB) (dbname name : String) (pre post : List String)
    (e : Error)
    (hv : (getServerVersion db).2 = none) (hd : (createDatabaseSQL db dbname).2 = none)
    (ht : getTables db = (pre ++ name :: post, none))
    (hpre : ∀ n ∈ pre, ∃ t, createTable db n = .ok t)
    (he : tableError db name = some e) : firstError db dbname = some e := by
  have h1 : pre.findSome? (tableError db) = none :=
    List.findSome?_eq_none_iff.mpr (fun n hn => by
      obtain ⟨t, ht⟩ := hpre n hn
      exact tableError_none_of_createTable_ok db n t ht)
  unfold firstError
  rw [hv, hd, ht]
  show (pre ++ name :: post).findSome? (tableError db) = some e
  rw [List.findSome?_append, h1, List.findSome?_cons, he]
  rfl

theorem Scan2_ok (r s : Option String) :
    Scan2 (.ok [r, s]) = .ok (scanNullString r, scanNullString s) := rfl

theorem scanNullString_String (r : Option String) : (scanNullString r).String = r.getD "" := by
  cases r <;> rfl

/-- C7: when the definition query answers with the name `r` and the statement
`s` (NULL read as the empty text), `createDatabaseSQL` and `createTableSQL`
return `s` and no error when `r` is the requested name, and the empty string
with an error when it is not; inside `Dump`, once the calls before it have
succeeded, that error is what `Dump` returns, with no text. -/
theorem definition_name_check (db : DB) (name : String) (r s : Option String) :
    (db.QueryRow ("SHOW CREATE DATABASE `" ++ name ++ "`") = .ok [r, s] →
      (r.getD "" = name → createDatabaseSQL db name = (s.getD "", none)) ∧
      (r.getD "" ≠ name → createDatabaseSQL db name =
        ("", some "Returned database is not the same as requested table")) ∧
      ((createDatabaseSQL db name).2 = none ↔ r.getD "" = name) ∧
      ∀ now, (getServerVersion db).2 = none → r.getD "" ≠ name →
        Dump db now name = ("", some "Returned database is not the same as requested table")) ∧
    (db.QueryRow ("SHOW CREATE TABLE `" ++ name ++ "`") = .ok [r, s] →
      (r.getD "" = name → createTableSQL db name = (s.getD "", none)) ∧
      (r.getD "" ≠ name → createTableSQL db name =
        ("", some "Returned table is not the same as requested table")) ∧
      ((createTableSQL db name).2 = none ↔ r.getD "" = name) ∧
      ∀ now dbname pre post, (getServerVersion db).2 = none →
        (createDatabaseSQL db dbname).2 = none →
        getTables db = (pre ++ name :: post, none) →
        (∀ n ∈ pre, ∃ t, createTable db n = .ok t) → r.getD "" ≠ name →
        Dump db now dbname = ("", some "Returned table is not the same as requested table")) := by
  constructor
  · intro hq
    have heq : r.getD "" = name → createDatabaseSQL db name = (s.getD "", none) := by
      intro h
      simp only [createDatabaseSQL, hq, Scan2_ok, scanNullString_String, h, ne_eq,
        not_true_eq_false, if_false]
    have hne : r.getD "" ≠ name → createDatabaseSQL db name =
        ("", some "Returned database is not the same as requested table") := by
      intro h
      simp only [createDatabaseSQL, hq, Scan2_ok, scanNullString_String, ne_eq, h,
        not_false_eq_true, if_true]
    refine ⟨heq, hne, ?_, ?_⟩
    · constructor
      · intro h
        by_contra hc
        rw [hne hc] at h
        cases h
      · intro h
        rw [heq h]
    · intro now hv h
      apply Dump_of_firstError_some
      unfold firstError
      rw [hv, hne h]
      rfl
  · intro hq
    have heq : r.getD "" = name → createTableSQL db name = (s.getD "", none) := by
      intro h
      simp only [createTableSQL, hq, Scan2_ok, scanNullString_String, h, ne_eq,
        not_true_eq_false, if_false]
    have hne : r.getD "" ≠ name → createTableSQL db name =
        ("", some "Returned table is not the same as requested table") := by
      intro h
      simp only [createTableSQL, hq, Scan2_ok, scanNullString_String, ne_eq, h,
        not_false_eq_true, if_true]
    refine ⟨heq, hne, ?_, ?_⟩
    · constructor
      · intro h
        by_contra hc
        rw [hne hc] at h
        cases h
      · intro h
        rw [heq h]
    · intro now dbname pre post hv hd ht hpre h
      apply Dump_of_firstError_some
      apply firstError_at_table db dbname name pre post _ hv hd ht hpre
      unfold tableError
      rw [hne h]
      rfl

theorem definition_name_check_witness :
    (exampleDB.withRow "SHOW CREATE TABLE `t`" (.ok [some "u", some "CREATE TABLE `u` (`id` int)"])).QueryRow
        ("SHOW CREATE TABLE `" ++ "t" ++ "`") = .ok [some "u", some "CREATE TABLE `u` (`id` int)"] ∧
    Dump (exampleDB.withRow "SHOW CREATE TABLE `t`" (.ok [some "u", some "CREATE TABLE `u` (`id` int)"]))
        "2024-05-01 10:00:00 +0000 UTC" "d" =
      ("", some "Returned table is not the same as requested table") :=
  ⟨by decide,
   ((definition_name_check
      (exampleDB.withRow "SHOW CREATE TABLE `t`" (.ok [some "u", some "CREATE TABLE `u` (`id` int)"]))
      "t" (some "u") (some "CREATE TABLE `u` (`id` int)")).2 (by decide)).2.2.2
      "2024-05-01 10:00:00 +0000 UTC" "d" [] [] (by decide) (by decide) (by decide)
      (fun _ h => nomatch h) (by decide)⟩



/-- C8: `Dump` returns the error of the first failing sub-call in pipeline
order (`firstError`: version, database definition, table list, then each table
in enumeration order, its definition before its rows) unchanged and with the
empty text; it fails only when a sub-call fails, and it never returns text
together with an error.  `createTable` hands on the error of the definition,
else that of the rows. -/
theorem Dump_first_error (db : DB) (now dbname : String) :
    (∀ e, firstError db dbname = some e → Dump db now dbname = ("", some e)) ∧
    (firstError db dbname = none → (Dump db now dbname).2 = none) ∧
    ((Dump db now dbname).2 ≠ none → (Dump db now dbname).1 = "") ∧
    (∀ e, (getServerVersion db).2 = some e → Dump db now dbname = ("", some e)) ∧
    (∀ e, (getServerVersion db).2 = none → (createDatabaseSQL db dbname).2 = some e →
      Dump db now dbname = ("", some e)) ∧
    (∀ e, (getServerVersion db).2 = none → (createDatabaseSQL db dbname).2 = none →
      (getTables db).2 = some e → Dump db now dbname = ("", some e)) ∧
    (∀ e pre name post, (getServerVersion db).2 = none →
      (createDatabaseSQL db dbname).2 = none →
      getTables db = (pre ++ name :: post, none) →
      (∀ n ∈ pre, ∃ t, createTable db n = .ok t) →
      createTable db name = .error e → Dump db now dbname = ("", some e)) ∧
    (∀ name e, (createTableSQL db name).2 = some e → createTable db name = .error e) ∧
    (∀ name e, (createTableSQL db name).2 = none → (createTableValues db name).2 = some e →
      createTable db name = .error e) := by
  have hsome := Dump_of_firstError_some db now dbname
  refine ⟨hsome, ?_, ?_, ?_, ?_, ?_, ?_, ?_, ?_⟩
  · intro h
    rw [Dump_of_firstError_none db now dbname h]
  · intro h
    cases hf : firstError db dbname with
    | none => rw [Dump_of_firstError_none db now dbname hf] at h; exact absurd rfl h
    | some e => rw [hsome e hf]
  · intro e hv
    apply hsome
    unfold firstError
    rw [hv]; rfl
  · intro e hv hd
    apply hsome
    unfold firstError
    rw [hv, hd]; rfl
  · intro e hv hd ht
    apply hsome
    unfold firstError
    rw [hv, hd, ht]; rfl
  · intro e pre name post hv hd ht hpre he
    apply hsome
    apply firstError_at_table db dbname name pre post e hv hd ht hpre
    cases hte : tableError db name with
    | none => rw [createTable_of_tableError_none db name hte] at he; cases he
    | some e1 =>
      rw [createTable_of_tableError_some db name e1 hte] at he
      cases he; rfl
  · intro name e h
    apply createTable_of_tableError_some
    unfold tableError
    rw [h]; rfl
  · intro name e h1 h2
    apply createTable_of_tableError_some
    unfold tableError
    rw [h1, h2]; rfl

theorem Dump_first_error_witness :
    firstError (exampleDB.withRow "SELECT version()" (.error "driver: bad connection")) "d" =
      some "driver: bad connection" ∧
    Dump (exampleDB.withRow "SELECT version()" (.error "driver: bad connection"))
      "2024-05-01 10:00:00 +0000 UTC" "d" = ("", some "driver: bad connection") :=
  ⟨by decide,
   (Dump_first_error (exampleDB.withRow "SELECT version()" (.error "driver: bad connection"))
      "2024-05-01 10:00:00 +0000 UTC" "d").1 "driver: bad connection" (by decide)⟩

/-- C9: when the result of `SELECT *` on the table `name` reports no column,
`createTableValues` returns no batch and the error
`No columns in table <name>.`, whatever rows the result holds; `Dump` on a
database that lists this table fails and returns no text, and fails with this
very error once the calls before it have succeeded. -/
theorem createTableValues_no_columns (db : DB) (name : String) (rows : Rows)
    (hq : db.Query ("SELECT * FROM `" ++ name ++ "`") = .ok rows)
    (hc : rows.Columns = .ok []) :
    createTableValues db name = ([], some ("No columns in table " ++ name ++ ".")) ∧
    (∀ now dbname, name ∈ (getTables db).1 → ∃ e, Dump db now dbname = ("", some e)) ∧
    (∀ now dbname pre post, (getServerVersion db).2 = none →
      (createDatabaseSQL db dbname).2 = none →
      getTables db = (pre ++ name :: post, none) →
      (∀ n ∈ pre, ∃ t, createTable db n = .ok t) →
      (createTableSQL db name).2 = none →
      Dump db now dbname = ("", some ("No columns in table " ++ name ++ "."))) := by
  have hv : createTableValues db name = ([], some ("No columns in table " ++ name ++ ".")) := by
    simp only [createTableValues, hq, hc, List.length_nil, if_true]
  have hte : tableError db name ≠ none := by
    unfold tableError
    rw [hv]
    cases (createTableSQL db name).2 <;> simp
  refine ⟨hv, ?_, ?_⟩
  · intro now dbname hmem
    cases hf : firstError db dbname with
    | some e => exact ⟨e, Dump_of_firstError_some db now dbname e hf⟩
    | none =>
      exfalso
      unfold firstError at hf
      rcases h1 : (getServerVersion db).2 with _ | e1
      · rcases h2 : (createDatabaseSQL db dbname).2 with _ | e2
        · rcases h3 : (getTables db).2 with _ | e3
          · rw [h1, h2, h3] at hf
            have h4 : (getTables db).1.findSome? (tableError db) = none := hf
            exact hte (List.findSome?_eq_none_iff.mp h4 name hmem)
          · rw [h1, h2, h3] at hf; cases hf
        · rw [h1, h2] at hf; cases hf
      · rw [h1] at hf; cases hf
  · intro now dbname pre post hver hd ht hpre hsql
    apply Dump_of_firstError_some
    apply firstError_at_table db dbname name pre post _ hver hd ht hpre
    unfold tableError
    rw [hsql, hv]; rfl

theorem createTableValues_no_columns_witness :
    (exampleDB.withRows (.ok noColumnRows)).Query ("SELECT * FROM `" ++ "t" ++ "`") =
      .ok noColumnRows ∧
    createTableValues (exampleDB.withRows (.ok noColumnRows)) "t" =
      ([], some ("No columns in table " ++ "t" ++ ".")) ∧
    Dump (exampleDB.withRows (.ok noColumnRows)) "2024-05-01 10:00:00 +0000 UTC" "d" =
      ("", some ("No columns in table " ++ "t" ++ ".")) :=
  ⟨by decide,
   (createTableValues_no_columns (exampleDB.withRows (.ok noColumnRows)) "t" noColumnRows
      (by decide) rfl).1,
   (createTableValues_no_columns (exampleDB.withRows (.ok noColumnRows)) "t" noColumnRows
      (by decide) rfl).2.2 "2024-05-01 10:00:00 +0000 UTC" "d" [] [] (by decide) (by decide)
      (by decide) (fun _ h => nomatch h) (by decide)⟩



/-- The lines written for the batches of a table are those of its non-empty
batches, in order. -/
theorem concat_insertStatement (name : String) (values : List String) :
    concat (values.map (insertStatement name)) =
      concat ((values.filter (fun b => b ≠ "")).map
        (fun b => "INSERT INTO `" ++ name ++ "` VALUES " ++ b ++ ";\n")) := by
  induction values with
  | nil => rfl
  | cons b rest ih =>
    by_cases hb : b = ""
    · subst hb
      simp [insertStatement, concat, ih]
    · simp [insertStatement, concat, ih, hb, String.append_assoc]

theorem tableText_eq (t : table) :
    tableText t = tableIntro t ++
      "/*!40000 ALTER TABLE `" ++ t.Name ++ "` DISABLE KEYS */;\n" ++ "\n" ++
      concat ((t.Values.filter (fun b => b ≠ "")).map
        (fun b => "INSERT INTO `" ++ t.Name ++ "` VALUES " ++ b ++ ";\n")) ++
      "\n\n/*!40000 ALTER TABLE `" ++ t.Name ++ "` ENABLE KEYS */;\nUNLOCK TABLES;\n" := by
  simp only [tableText, tableIntro, concat, concat_insertStatement, String.append_assoc,
    String.append_empty, String.empty_append]

theorem tableText_fun :
    tableText = fun t => tableIntro t ++
      "/*!40000 ALTER TABLE `" ++ t.Name ++ "` DISABLE KEYS */;\n" ++ "\n" ++
      concat ((t.Values.filter (fun b => b ≠ "")).map
        (fun b => "INSERT INTO `" ++ t.Name ++ "` VALUES " ++ b ++ ";\n")) ++
      "\n\n/*!40000 ALTER TABLE `" ++ t.Name ++ "` ENABLE KEYS */;\nUNLOCK TABLES;\n" :=
  funext tableText_eq

set_option maxRecDepth 100000 in
theorem backtickQuoted_getTemplateItems : backtickQuoted none getTemplateItems = true := by
  decide!

theorem dumpText_eq (d : dump) :
    dumpText d = dumpIntro d ++ concat (d.Tables.map tableText) ++
      "\n-- Dump completed on " ++ d.CompleteTime := by
  simp only [dumpText, dumpIntro, concat, String.append_assoc, String.append_empty]

/-- C5: the text that the template writes holds, for each table in order,
between the table's `DISABLE KEYS` line and its `ENABLE KEYS` line, one line
`INSERT INTO <name> VALUES <b>;` (the name in backticks) for each batch `b` of
`Values` that is not the empty string, in the order of `Values`, and nothing
for an empty batch; a table whose only batch is empty gets no `INSERT` line. -/
theorem render_insert_statements (d : dump) :
    ∃ tpl, Parse getTemplate = .ok tpl ∧
      Execute tpl d = .ok (dumpIntro d ++
        concat (d.Tables.map (fun t =>
          tableIntro t ++
          "/*!40000 ALTER TABLE `" ++ t.Name ++ "` DISABLE KEYS */;\n" ++ "\n" ++
          concat ((t.Values.filter (fun b => b ≠ "")).map
            (fun b => "INSERT INTO `" ++ t.Name ++ "` VALUES " ++ b ++ ";\n")) ++
          "\n\n/*!40000 ALTER TABLE `" ++ t.Name ++ "` ENABLE KEYS */;\nUNLOCK TABLES;\n")) ++
        "\n-- Dump completed on " ++ d.CompleteTime) ∧
      ∀ t, d.Tables = [t] → t.Values = [""] →
        Execute tpl d = .ok (dumpIntro d ++
          (tableIntro t ++
           "/*!40000 ALTER TABLE `" ++ t.Name ++ "` DISABLE KEYS */;\n" ++ "\n" ++
           "\n\n/*!40000 ALTER TABLE `" ++ t.Name ++ "` ENABLE KEYS */;\nUNLOCK TABLES;\n") ++
          "\n-- Dump completed on " ++ d.CompleteTime) := by
  refine ⟨getTemplateTree, Parse_getTemplate, ?_, ?_⟩
  · rw [Execute_getTemplateTree, dumpText_eq, tableText_fun]
  · intro t ht hv
    rw [Execute_getTemplateTree, dumpText_eq, ht]
    simp only [List.map_cons, List.map_nil, concat, tableText_eq, hv, String.append_assoc,
      String.append_empty, String.empty_append]

/-- C10: in the template of `getTemplate` every item that prints the database
name or a table name stands between a text that ends in one backtick and a
text that starts with one; the text written for a dump therefore shows the
database name and every table name in backticks at each place where the
template prints them. -/
theorem names_backtick_quoted (d : dump) :
    (∃ items, lex getTemplate = .ok items ∧ backtickQuoted none items = true) ∧
    ∃ tpl, Parse getTemplate = .ok tpl ∧
      Execute tpl d = .ok (
        "-- Go SQL Dump " ++ d.DumpVersion ++
        "\n--\n-- ------------------------------------------------------\n-- Server version\t" ++
        d.ServerVersion ++
        "\n\n/*!40101 SET @OLD_CHARACTER_SET_CLIENT=@@CHARACTER_SET_CLIENT */;\n" ++
        "/*!40101 SET @OLD_CHARACTER_SET_RESULTS=@@CHARACTER_SET_RESULTS */;\n" ++
        "/*!40101 SET @OLD_COLLATION_CONNECTION=@@COLLATION_CONNECTION */;\n" ++
        "/*!40101 SET NAMES utf8 */;\n" ++
        "/*!40103 SET @OLD_TIME_ZONE=@@TIME_ZONE */;\n" ++
        "/*!40103 SET TIME_ZONE='+00:00' */;\n" ++
        "/*!40014 SET @OLD_UNIQUE_CHECKS=@@UNIQUE_CHECKS, UNIQUE_CHECKS=0 */;\n" ++
        "/*!40014 SET @OLD_FOREIGN_KEY_CHECKS=@@FOREIGN_KEY_CHECKS, FOREIGN_KEY_CHECKS=0 */;\n" ++
        "/*!40101 SET @OLD_SQL_MODE=@@SQL_MODE, SQL_MODE='NO_AUTO_VALUE_ON_ZERO' */;\n" ++
        "/*!40111 SET @OLD_SQL_NOTES=@@SQL_NOTES, SQL_NOTES=0 */;\n\n\nDROP DATABASE IF EXISTS `" ++
        d.DBName ++ "`;\n\n" ++ d.DBSQL ++ ";\n\nUSE `" ++ d.DBName ++ "`;\n\n" ++
        concat (d.Tables.map (fun t =>
          "\n--\n-- Table structure for table `" ++ t.Name ++
          "`\n--\n\nDROP TABLE IF EXISTS `" ++ t.Name ++
          "`;\n/*!40101 SET @saved_cs_client     = @@character_set_client */;\n" ++
          "/*!40101 SET character_set_client = utf8 */;\n" ++
          t.SQL ++
          ";\n/*!40101 SET character_set_client = @saved_cs_client */;\n" ++
          "--\n-- Dumping data for table `" ++ t.Name ++
          "`\n--\n\nLOCK TABLES `" ++ t.Name ++ "` WRITE;\n" ++
          "/*!40000 ALTER TABLE `" ++ t.Name ++ "` DISABLE KEYS */;\n" ++ "\n" ++
          concat ((t.Values.filter (fun b => b ≠ "")).map
            (fun b => "INSERT INTO `" ++ t.Name ++ "` VALUES " ++ b ++ ";\n")) ++
          "\n\n/*!40000 ALTER TABLE `" ++ t.Name ++ "` ENABLE KEYS */;\nUNLOCK TABLES;\n")) ++
        "\n-- Dump completed on " ++ d.CompleteTime) := by
  refine ⟨⟨getTemplateItems, lex_getTemplate, backtickQuoted_getTemplateItems⟩,
    getTemplateTree, Parse_getTemplate, ?_⟩
  rw [Execute_getTemplateTree, dumpText_eq, tableText_fun]
  simp only [tableIntro, dumpIntro, String.append_assoc]



theorem exampleDB_createTableValues :
    createTableValues exampleDB "t" = (["('1','a'),('2',null)"], none) := by
  have h := createTableValues_of_read exampleDB "t" exampleRows ["id", "name"]
    ["('1','a')", "('2',null)"] (by decide) rfl (by decide) (by decide)
  rw [h, groups_of_not_lt (by decide)]
  decide

theorem exampleDB_firstError : firstError exampleDB "d" = none := by
  have h1 : getServerVersion exampleDB = ("8.0.36", none) := by decide
  have h2 : createDatabaseSQL exampleDB "d" = ("CREATE DATABASE `d`", none) := by decide
  have h3 : getTables exampleDB = (["t"], none) := by decide
  have h4 : createTableSQL exampleDB "t" =
      ("CREATE TABLE `t` (`id` int, `name` varchar(16))", none) := by decide
  unfold firstError
  rw [h1, h2, h3]
  simp only [List.findSome?, tableError, h4, exampleDB_createTableValues]
  rfl

theorem exampleDB_Dump (now : String) :
    Dump exampleDB now "d" =
      (dumpText
        { DumpVersion := "0.2.2"
          ServerVersion := "8.0.36"
          DBName := "d"
          DBSQL := "CREATE DATABASE `d`"
          Tables := [{ Name := "t", SQL := "CREATE TABLE `t` (`id` int, `name` varchar(16))",
                       Values := ["('1','a'),('2',null)"] }]
          CompleteTime := now }, none) := by
  have h1 : getServerVersion exampleDB = ("8.0.36", none) := by decide
  have h2 : createDatabaseSQL exampleDB "d" = ("CREATE DATABASE `d`", none) := by decide
  have h3 : getTables exampleDB = (["t"], none) := by decide
  have h4 : createTableSQL exampleDB "t" =
      ("CREATE TABLE `t` (`id` int, `name` varchar(16))", none) := by decide
  rw [Dump_of_firstError_none exampleDB now "d" exampleDB_firstError, h1, h2, h3]
  simp only [List.map, tableOf, h4, exampleDB_createTableValues]
  rfl

theorem dumpText_completeTime (dv sv dn ds : String) (ts : List table) (ct : String) :
    dumpText { DumpVersion := dv, ServerVersion := sv, DBName := dn, DBSQL := ds, Tables := ts,
               CompleteTime := ct } =
      dumpText { DumpVersion := dv, ServerVersion := sv, DBName := dn, DBSQL := ds, Tables := ts,
                 CompleteTime := "" } ++ ct := by
  simp only [dumpText, concat, String.append_assoc, String.append_empty]

set_option maxRecDepth 1000000 in
theorem exampleDB_dumpText :
    dumpText
      { DumpVersion := "0.2.2"
        ServerVersion := "8.0.36"
        DBName := "d"
        DBSQL := "CREATE DATABASE `d`"
        Tables := [{ Name := "t", SQL := "CREATE TABLE `t` (`id` int, `name` varchar(16))",
                     Values := ["('1','a'),('2',null)"] }]
        CompleteTime := "" } =
      "-- Go SQL Dump 0.2.2\n" ++
      "--\n" ++
      "-- ------------------------------------------------------\n" ++
      "-- Server version\t8.0.36\n" ++
      "\n" ++
      "/*!40101 SET @OLD_CHARACTER_SET_CLIENT=@@CHARACTER_SET_CLIENT */;\n" ++
      "/*!40101 SET @OLD_CHARACTER_SET_RESULTS=@@CHARACTER_SET_RESULTS */;\n" ++
      "/*!40101 SET @OLD_COLLATION_CONNECTION=@@COLLATION_CONNECTION */;\n" ++
      "/*!40101 SET NAMES utf8 */;\n" ++
      "/*!40103 SET @OLD_TIME_ZONE=@@TIME_ZONE */;\n" ++
      "/*!40103 SET TIME_ZONE='+00:00' */;\n" ++
      "/*!40014 SET @OLD_UNIQUE_CHECKS=@@UNIQUE_CHECKS, UNIQUE_CHECKS=0 */;\n" ++
      "/*!40014 SET @OLD_FOREIGN_KEY_CHECKS=@@FOREIGN_KEY_CHECKS, FOREIGN_KEY_CHECKS=0 */;\n" ++
      "/*!40101 SET @OLD_SQL_MODE=@@SQL_MODE, SQL_MODE='NO_AUTO_VALUE_ON_ZERO' */;\n" ++
      "/*!40111 SET @OLD_SQL_NOTES=@@SQL_NOTES, SQL_NOTES=0 */;\n" ++
      "\n" ++
      "\n" ++
      "DROP DATABASE IF EXISTS `d`;\n" ++
      "\n" ++
      "CREATE DATABASE `d`;\n" ++
      "\n" ++
      "USE `d`;\n" ++
      "\n" ++
      "\n" ++
      "--\n" ++
      "-- Table structure for table `t`\n" ++
      "--\n" ++
      "\n" ++
      "DROP TABLE IF EXISTS `t`;\n" ++
      "/*!40101 SET @saved_cs_client     = @@character_set_client */;\n" ++
      "/*!40101 SET character_set_client = utf8 */;\n" ++
      "CREATE TABLE `t` (`id` int, `name` varchar(16));\n" ++
      "/*!40101 SET character_set_client = @saved_cs_client */;\n" ++
      "--\n" ++
      "-- Dumping data for table `t`\n" ++
      "--\n" ++
      "\n" ++
      "LOCK TABLES `t` WRITE;\n" ++
      "/*!40000 ALTER TABLE `t` DISABLE KEYS */;\n" ++
      "\n" ++
      "INSERT INTO `t` VALUES ('1','a'),('2',null);\n" ++
      "\n" ++
      "\n" ++
      "/*!40000 ALTER TABLE `t` ENABLE KEYS */;\n" ++
      "UNLOCK TABLES;\n" ++
      "\n" ++
      "-- Dump completed on " := by
  decide!

/-- C6 (amended): for the database `d` with the single table
`t(id int, name varchar)` holding `(1, 'a')` and `(2, NULL)`,
`createTableValues` yields the single batch `('1','a'),('2',null)` (every
value that is not NULL in quotes), and `Dump` succeeds with the text below: the
line `INSERT INTO t VALUES ('1','a'),('2',null);` (the name in backticks) comes
after the table's creation statement, which comes after the `DROP TABLE IF
EXISTS` line for `t`. -/
theorem example_dump (now : String) :
    createTableValues exampleDB "t" = (["('1','a'),('2',null)"], none) ∧
    Dump exampleDB now "d" =
      ("-- Go SQL Dump 0.2.2\n" ++
       "--\n" ++
       "-- ------------------------------------------------------\n" ++
       "-- Server version\t8.0.36\n" ++
       "\n" ++
       "/*!40101 SET @OLD_CHARACTER_SET_CLIENT=@@CHARACTER_SET_CLIENT */;\n" ++
       "/*!40101 SET @OLD_CHARACTER_SET_RESULTS=@@CHARACTER_SET_RESULTS */;\n" ++
       "/*!40101 SET @OLD_COLLATION_CONNECTION=@@COLLATION_CONNECTION */;\n" ++
       "/*!40101 SET NAMES utf8 */;\n" ++
       "/*!40103 SET @OLD_TIME_ZONE=@@TIME_ZONE */;\n" ++
       "/*!40103 SET TIME_ZONE='+00:00' */;\n" ++
       "/*!40014 SET @OLD_UNIQUE_CHECKS=@@UNIQUE_CHECKS, UNIQUE_CHECKS=0 */;\n" ++
       "/*!40014 SET @OLD_FOREIGN_KEY_CHECKS=@@FOREIGN_KEY_CHECKS, FOREIGN_KEY_CHECKS=0 */;\n" ++
       "/*!40101 SET @OLD_SQL_MODE=@@SQL_MODE, SQL_MODE='NO_AUTO_VALUE_ON_ZERO' */;\n" ++
       "/*!40111 SET @OLD_SQL_NOTES=@@SQL_NOTES, SQL_NOTES=0 */;\n" ++
       "\n" ++
       "\n" ++
       "DROP DATABASE IF EXISTS `d`;\n" ++
       "\n" ++
       "CREATE DATABASE `d`;\n" ++
       "\n" ++
       "USE `d`;\n" ++
       "\n" ++
       "\n" ++
       "--\n" ++
       "-- Table structure for table `t`\n" ++
       "--\n" ++
       "\n" ++
       "DROP TABLE IF EXISTS `t`;\n" ++
       "/*!40101 SET @saved_cs_client     = @@character_set_client */;\n" ++
       "/*!40101 SET character_set_client = utf8 */;\n" ++
       "CREATE TABLE `t` (`id` int, `name` varchar(16));\n" ++
       "/*!40101 SET character_set_client = @saved_cs_client */;\n" ++
       "--\n" ++
       "-- Dumping data for table `t`\n" ++
       "--\n" ++
       "\n" ++
       "LOCK TABLES `t` WRITE;\n" ++
       "/*!40000 ALTER TABLE `t` DISABLE KEYS */;\n" ++
       "\n" ++
       "INSERT INTO `t` VALUES ('1','a'),('2',null);\n" ++
       "\n" ++
       "\n" ++
       "/*!40000 ALTER TABLE `t` ENABLE KEYS */;\n" ++
       "UNLOCK TABLES;\n" ++
       "\n" ++
       "-- Dump completed on " ++ now, none) := by
  refine ⟨exampleDB_createTableValues, ?_⟩
  rw [exampleDB_Dump, dumpText_completeTime, exampleDB_dumpText]

set_option maxRecDepth 1000000 in
/-- C6 as stated fails: on this database `createTableValues` yields the batch
`('1','a'),('2',null)`, not `(1,'a'),(2,null)`, and the text that `Dump`
returns does not hold the line `INSERT INTO t VALUES (1,'a'),(2,null);`. -/
theorem example_dump_counterexample :
    createTableValues exampleDB "t" = (["('1','a'),('2',null)"], none) ∧
    createTableValues exampleDB "t" ≠ (["(1,'a'),(2,null)"], none) ∧
    (Dump exampleDB "2024-05-01 10:00:00 +0000 UTC" "d").2 = none ∧
    ¬ ("INSERT INTO `t` VALUES (1,'a'),(2,null);".data <:+:
        (Dump exampleDB "2024-05-01 10:00:00 +0000 UTC" "d").1.data) := by
  refine ⟨exampleDB_createTableValues, ?_, ?_, ?_⟩
  · rw [exampleDB_createTableValues]
    decide
  · rw [exampleDB_Dump]
  · rw [exampleDB_Dump, dumpText_completeTime, exampleDB_dumpText]
    decide!

end mysqldump
